import Mathlib

/-!
Verification development for the compliance-oracle per-requirement agent
pipeline: a shallow embedding of the workflow routing conditions
(src/workflow/conditions.py), the workflow nodes (src/workflow/nodes.py,
src/workflow/state.py), the agent loop kernel (src/agents/base.py), the
adaptive retrieval agent (src/agents/retrieval_agent.py), the gap analysis
agent (src/agents/analysis_agent.py) and the validation verdict computation
(src/agents/validation_agent.py).

Modelling conventions:
- Python floats carrying relevance/confidence scores are modelled as `ℚ`;
  all comparisons in the source involve values where float and rational
  comparison agree.
- Python `str` is `String`; `sub in s` is substring containment, modelled
  on the underlying character lists.
- Calls into external collaborators (vector store, LLM client, parsers)
  are modelled as explicit parameters; a fallible external call is an
  `Except String` value, `.error e` standing for a raised exception with
  message `e`.
- Python dict-shaped state (`WorkflowState`, a `TypedDict` with
  `total=False`) is a record; an absent key is identified with the default
  that `state.get(key, default)` supplies at every read site.
- Log messages built with f-string interpolation are modelled by their
  static prefix (for error messages, prefix ++ exception text, which is
  what the claims are about); purely informational log text is kept as a
  fixed string.
-/

namespace ComplianceOracle

/-- Python `sub in s` on strings: substring containment on the underlying
character lists. -/
def pyInStr (sub s : String) : Bool :=
  decide (List.IsInfix sub.data s.data)

/-- Python `s.lower()`: character-wise lowercasing (the source only ever
lowercases ASCII keyword text). -/
def pyLower (s : String) : String :=
  ⟨s.data.map Char.toLower⟩

/-- A parsed document; its internal structure (sections, metadata) is an
external collaborator concern (parsers are out of scope), so it is kept
opaque apart from an identifier. -/
structure Document where
  doc_id : String
deriving Repr, DecidableEq

/-- A regulatory requirement (src/models/requirements.py, `Requirement`);
only the fields read by the agents under verification are carried. -/
structure Requirement where
  requirement_id : String
  citation : String
  text : String
deriving Repr, DecidableEq

/-- Search strategy for a requirement (src/models/requirements.py,
`SearchStrategy`). -/
structure SearchStrategy where
  requirement_id : String
  primary_queries : List String
  secondary_queries : List String
  category_queries : List String
  concepts_to_find : List String
deriving Repr, DecidableEq

/-- Modelled from the spec: `SearchStrategy.get_all_queries`, called by
`RetrievalAgent._should_continue`, is absent from the models file in src
(src/models/requirements.py defines `SearchStrategy` without it); the spec
describes the exhaustion condition as ranging over "every query across all
three tiers". -/
def SearchStrategy.get_all_queries (s : SearchStrategy) : List String :=
  s.primary_queries ++ s.secondary_queries ++ s.category_queries

/-- A policy excerpt as constructed by `RetrievalAgent._act`
(src/agents/retrieval_agent.py): the `PolicySection` shape the agents use. -/
structure PolicySection where
  section_id : String
  title : Option String
  content : String
  relevance_score : ℚ
  page : Option Nat
  found_by_query : String
deriving Repr, DecidableEq

/-- One hit returned by the vector store `search` call, as read by
`RetrievalAgent._act` (keys `section_id`, `title`, `content`, `score`,
`page`). -/
structure SearchResult where
  section_id : String
  title : Option String
  content : String
  score : ℚ
  page : Option Nat
deriving Repr, DecidableEq

/-- Final outcome of the retrieval agent (`RetrievalResult` as constructed
in `RetrievalAgent._extract_result`). -/
structure RetrievalResult where
  requirement_id : String
  retrieval_attempts : Nat
  queries_executed : List String
  sections_found : List PolicySection
  coverage_assessment : String
  confidence : ℚ
deriving Repr, DecidableEq

/-- Compliance status enum (src/models/findings.py, `ComplianceStatus`);
`gapPartial` renders the source's `PARTIAL_GAP`. -/
inductive ComplianceStatus where
  | compliant
  | gapPartial
  | gap
  | contradiction
  | uncertain
deriving Repr, DecidableEq

/-- Severity enum (src/models/findings.py, `Severity`). -/
inductive Severity where
  | critical
  | high
  | medium
  | low
deriving Repr, DecidableEq

/-- A reasoning step (src/models/findings.py, `ReasoningStep`). -/
structure ReasoningStep where
  step : Nat
  observation : String
  analysis : String
deriving Repr, DecidableEq

/-- Gap details as constructed by `AnalysisAgent._analyze_compliance`. -/
structure GapDetails where
  what_is_missing : String
  policy_has : Option String
  policy_lacks : Option String
deriving Repr, DecidableEq

/-- Modelled from the spec: the `Finding` model the agents construct and
read (fields `status`, `confidence`, `reasoning_chain`, `sections_found`,
`gap_details`, `recommendation`, `severity`) is absent from src — the
`Finding` in src/models/findings.py is a divergent version without
`sections_found` or `is_gap`.  Fields follow the spec's Finding data model
(§3) and the construction sites in src/agents/analysis_agent.py. -/
structure Finding where
  requirement_id : String
  requirement_citation : String
  requirement_text : String
  status : ComplianceStatus
  confidence : ℚ
  reasoning_chain : List ReasoningStep
  sections_found : List PolicySection
  gap_details : Option GapDetails := none
  recommendation : Option String := none
  severity : Option Severity := none
deriving Repr, DecidableEq

/-- Modelled from the spec: `Finding.is_gap`, called by the analysis and
validation agents, is absent from src; per the spec (§4.4, recommendation
generated "only if status is a gap/partial/contradiction") it holds exactly
for the gap-type statuses. -/
def Finding.is_gap (f : Finding) : Bool :=
  match f.status with
  | .gap => true
  | .gapPartial => true
  | .contradiction => true
  | _ => false

/-- A section-with-metadata entry as stored by the `retrieve_context` node
into `state["retrieval_results"]`; downstream state machine code only tests
the list for emptiness, so the entry is kept opaque. -/
structure RetrievedSection where
  payload : String
deriving Repr, DecidableEq

/-- The workflow state (src/workflow/state.py, `WorkflowState`).  The
source is a `TypedDict` with `total=False`; an absent key is identified
with the default every reader supplies via `state.get(key, default)`
(`None` for the optional fields, `0` for counters, `[]` for lists,
`""` for `validation_feedback`, `3`/`2` for the iteration maxima,
`"running"` for `workflow_status`). -/
structure WorkflowState where
  policy_document : Option Document
  benchmark_document : Option Document
  requirements : List Requirement
  total_requirements : Nat
  current_requirement : Option Requirement
  current_requirement_index : Nat
  search_queries : Option SearchStrategy
  retrieval_results : List RetrievedSection
  retrieval_iteration : Nat
  max_retrieval_iterations : Nat
  retrieval_confidence : ℚ
  current_finding : Option Finding
  analysis_reasoning : List ReasoningStep
  validation_status : Option String
  validation_feedback : String
  validation_iteration : Nat
  max_validation_iterations : Nat
  findings : List Finding
  all_requirements_processed : Bool
  workflow_status : String
  logs : List String
  errors : List String
deriving Repr, DecidableEq

/-- `create_initial_state` (src/workflow/state.py). -/
def create_initial_state : WorkflowState where
  policy_document := none
  benchmark_document := none
  requirements := []
  total_requirements := 0
  current_requirement := none
  current_requirement_index := 0
  search_queries := none
  retrieval_results := []
  retrieval_iteration := 0
  max_retrieval_iterations := 3
  retrieval_confidence := 0
  current_finding := none
  analysis_reasoning := []
  validation_status := none
  validation_feedback := ""
  validation_iteration := 0
  max_validation_iterations := 2
  findings := []
  all_requirements_processed := false
  workflow_status := "running"
  logs := []
  errors := []

/-- `add_log` (src/workflow/state.py). -/
def add_log (s : WorkflowState) (message : String) : WorkflowState :=
  { s with logs := s.logs ++ [message] }

/-- `add_error` (src/workflow/state.py). -/
def add_error (s : WorkflowState) (error : String) : WorkflowState :=
  { s with errors := s.errors ++ [error] }

/-- `reset_retrieval_iteration` (src/workflow/state.py). -/
def reset_retrieval_iteration (s : WorkflowState) : WorkflowState :=
  { s with retrieval_iteration := 0, retrieval_results := [],
           retrieval_confidence := 0 }

/-- `reset_validation_iteration` (src/workflow/state.py); setting
`validation_feedback` to `None` is rendered as the empty string, the
default every reader supplies. -/
def reset_validation_iteration (s : WorkflowState) : WorkflowState :=
  { s with validation_iteration := 0, validation_status := none,
           validation_feedback := "" }

/-- `increment_retrieval_iteration` (src/workflow/state.py). -/
def increment_retrieval_iteration (s : WorkflowState) : WorkflowState :=
  { s with retrieval_iteration := s.retrieval_iteration + 1 }

/-- `increment_validation_iteration` (src/workflow/state.py). -/
def increment_validation_iteration (s : WorkflowState) : WorkflowState :=
  { s with validation_iteration := s.validation_iteration + 1 }

/-- `get_next_requirement` (src/workflow/state.py). -/
def get_next_requirement (s : WorkflowState) : Option Requirement :=
  s.requirements.get? s.current_requirement_index

/-- `move_to_next_requirement` (src/workflow/state.py). -/
def move_to_next_requirement (s : WorkflowState) : WorkflowState :=
  let s := { s with current_requirement_index := s.current_requirement_index + 1 }
  let s := reset_retrieval_iteration s
  let s := reset_validation_iteration s
  let s := { s with current_finding := none, analysis_reasoning := [] }
  let next := get_next_requirement s
  let s := { s with current_requirement := next }
  match next with
  | none => { s with all_requirements_processed := true }
  | some _ => s

/-- Keyword scan of `should_retry_retrieval`
(src/workflow/conditions.py, lines 197-203). -/
def feedback_needs_more_context (feedback : String) : Bool :=
  ["incomplete", "missing", "insufficient", "not found", "more context"].any
    (fun k => pyInStr k (pyLower feedback))

/-- `should_retry_retrieval` (src/workflow/conditions.py). -/
def should_retry_retrieval (s : WorkflowState) : Bool :=
  if s.validation_status ≠ some "retry" then false
  else if s.max_retrieval_iterations ≤ s.retrieval_iteration then false
  else feedback_needs_more_context s.validation_feedback

/-- `route_after_validation` (src/workflow/conditions.py). -/
def route_after_validation (s : WorkflowState) : String :=
  if s.validation_status = some "approved" then "aggregate"
  else if s.validation_status = some "rejected" then "aggregate"
  else if s.validation_status = some "retry" then
    if s.max_validation_iterations ≤ s.validation_iteration then "aggregate"
    else if should_retry_retrieval s then "retry_retrieval"
    else "retry_analysis"
  else "aggregate"

/-- `needs_more_retrieval` (src/workflow/conditions.py). -/
def needs_more_retrieval (s : WorkflowState) : String :=
  if s.max_retrieval_iterations ≤ s.retrieval_iteration then "analyze"
  else if s.retrieval_results = [] then "retrieve_more"
  else if s.retrieval_confidence < 7/10 ∧
          s.retrieval_iteration < s.max_retrieval_iterations then "retrieve_more"
  else "analyze"

/-- `has_more_requirements` (src/workflow/conditions.py). -/
def has_more_requirements (s : WorkflowState) : String :=
  if s.all_requirements_processed then "complete" else "understand_query"

/-- `is_valid_finding` (src/workflow/conditions.py). -/
def is_valid_finding (s : WorkflowState) : String :=
  match s.current_finding with
  | none => "aggregate"
  | some f => if f.status = .compliant then "aggregate" else "validate"

/-- The five named boolean checks computed by `ValidationAgent._act`
(step 1): `checks` always carries exactly these keys. -/
structure ValidationChecks where
  citation_valid : Bool
  logic_valid : Bool
  completeness_ok : Bool
  no_hallucination : Bool
  recommendation_actionable : Bool
deriving Repr, DecidableEq

/-- `sum(checks.values())`: the number of checks that passed. -/
def ValidationChecks.trueCount (c : ValidationChecks) : Nat :=
  (if c.citation_valid then 1 else 0) + (if c.logic_valid then 1 else 0) +
  (if c.completeness_ok then 1 else 0) + (if c.no_hallucination then 1 else 0) +
  (if c.recommendation_actionable then 1 else 0)

/-- `len(critical_failed)` in `_generate_validation_result`: the number of
critical checks (`citation_valid`, `no_hallucination`) that failed. -/
def ValidationChecks.criticalFailedCount (c : ValidationChecks) : Nat :=
  (if c.citation_valid then 0 else 1) + (if c.no_hallucination then 0 else 1)

/-- The validation verdict as constructed by
`ValidationAgent._generate_validation_result` (`ValidationResult` with
`is_valid`, the check map, itemized issues and suggestions). -/
structure ValidationVerdict where
  is_valid : Bool
  validation_checks : ValidationChecks
  issues : List String
  suggestions : List String
deriving Repr, DecidableEq

/-- `ValidationAgent._generate_validation_result`
(src/agents/validation_agent.py, lines 251-296): `is_valid` is
`len(critical_failed) == 0 and sum(checks.values()) >= len(checks) - 1`
with `len(checks) = 5`. -/
def generate_validation_result (c : ValidationChecks) : ValidationVerdict :=
  let is_valid := c.criticalFailedCount == 0 && decide (4 ≤ c.trueCount)
  let issues :=
    (if c.citation_valid then [] else
      ["Citation verification failed - referenced section does not exist"]) ++
    (if c.logic_valid then [] else ["Reasoning chain contains logical flaws"]) ++
    (if c.completeness_ok then [] else ["Search may not have been thorough enough"]) ++
    (if c.no_hallucination then [] else ["Potential hallucination detected"]) ++
    (if c.recommendation_actionable then [] else ["Recommendation is too vague or missing"])
  let suggestions :=
    (if c.logic_valid then [] else ["Re-analyze with clearer reasoning steps"]) ++
    (if c.completeness_ok then [] else ["Expand search with additional queries"]) ++
    (if c.no_hallucination then [] else ["Verify all facts against source documents"]) ++
    (if c.recommendation_actionable then [] else
      ["Generate more specific, actionable recommendation"])
  ⟨is_valid, c, issues, suggestions⟩

/-- The agent loop kernel `BaseAgent.run` (src/agents/base.py, lines
143-240), reduced to its control flow: starting from `current_step = 0`,
while `current_step < max_iterations` it increments the step counter, runs
one think/act/observe round (`stepF`, which receives the new value of
`current_step`), and breaks when `_should_continue` (`contF`, which reads
`current_step` off the agent) returns false.  The `while` guard is rendered
as structural fuel (`maxIterations - current_step` at entry, so `fuel`
many guard checks remain).  Returns the final `current_step` (the number of
executed iterations) and the final context. -/
def runLoopAux {Ctx : Type} (stepF : Nat → Ctx → Ctx) (contF : Nat → Ctx → Bool) :
    Nat → Nat → Ctx → Nat × Ctx
  | 0, cur, ctx => (cur, ctx)
  | fuel + 1, cur, ctx =>
    let cur' := cur + 1
    let ctx' := stepF cur' ctx
    if contF cur' ctx' then runLoopAux stepF contF fuel cur' ctx'
    else (cur', ctx')

/-- `BaseAgent.run` entry: `current_step` starts at 0, so exactly
`max_iterations` loop-guard checks are available. -/
def runLoop {Ctx : Type} (stepF : Nat → Ctx → Ctx) (contF : Nat → Ctx → Bool)
    (maxIterations : Nat) (ctx : Ctx) : Nat × Ctx :=
  runLoopAux stepF contF maxIterations 0 ctx

/-- Ordering used by `sections_found.sort(key=relevance_score, reverse=True)`
in `RetrievalAgent._observe`: descending relevance. -/
def relDesc (a b : PolicySection) : Prop :=
  b.relevance_score ≤ a.relevance_score

instance : DecidableRel relDesc := fun a b =>
  inferInstanceAs (Decidable (b.relevance_score ≤ a.relevance_score))

instance : IsTotal PolicySection relDesc :=
  ⟨fun a b => (le_total b.relevance_score a.relevance_score).elim Or.inl Or.inr⟩

instance : IsTrans PolicySection relDesc :=
  ⟨fun _ _ _ h h' => le_trans h' h⟩

/-- Python's `list.sort` is a stable sort; any two stable sorts under the
same total preorder agree, so it is rendered by `List.insertionSort`. -/
def sortByRelevanceDesc (xs : List PolicySection) : List PolicySection :=
  List.insertionSort relDesc xs

/-- The mutable context dictionary threaded through the retrieval agent's
loop (`RetrievalAgent.retrieve` seeds `sections_found`, `queries_executed`,
`seen_section_ids`; the requirement and strategy entries are read-only and
passed separately).  The Python `set` of seen ids is rendered as a list
queried by membership (ids are only inserted when absent, so order and
multiplicity never matter). -/
structure RetrievalCtx where
  sections_found : List PolicySection
  queries_executed : List String
  seen_section_ids : List String
deriving Repr, DecidableEq

/-- Construction of a `PolicySection` from one vector-store hit in
`RetrievalAgent._act`. -/
def mkPolicySection (query : String) (r : SearchResult) : PolicySection :=
  ⟨r.section_id, r.title, r.content, r.score, r.page, query⟩

/-- Inner result loop of `RetrievalAgent._act`: for each hit, skip it when
its section id was already seen, otherwise append the wrapped section and
record the id as seen. -/
def processResults (query : String) :
    List SearchResult → List String → List PolicySection →
    List PolicySection × List String
  | [], seen, acc => (acc, seen)
  | r :: rs, seen, acc =>
    if seen.contains r.section_id then processResults query rs seen acc
    else processResults query rs (r.section_id :: seen) (acc ++ [mkPolicySection query r])

/-- Query loop of `RetrievalAgent._act`: state is
(`new_sections`, `queries_executed`, `seen_section_ids`); empty and
already-executed queries are skipped, each executed query is appended to
`queries_executed`. -/
def actLoop (store : String → Nat → List SearchResult) (results_per_query : Nat) :
    List String → List PolicySection × List String × List String →
    List PolicySection × List String × List String
  | [], st => st
  | q :: qs, st =>
    if q = "" ∨ st.2.1.contains q then actLoop store results_per_query qs st
    else
      let pr := processResults q (store q results_per_query) st.2.2 st.1
      actLoop store results_per_query qs (pr.1, st.2.1 ++ [q], pr.2)

/-- `RetrievalAgent._act` (src/agents/retrieval_agent.py, lines 88-147):
iteration 1 runs the primary queries, iteration 2 the secondary, any later
iteration the category queries; returns the new sections and the context
with updated `queries_executed` / `seen_section_ids`. -/
def retrievalAct (store : String → Nat → List SearchResult)
    (results_per_query : Nat) (strategy : SearchStrategy)
    (current_step : Nat) (ctx : RetrievalCtx) :
    List PolicySection × RetrievalCtx :=
  let queries_to_run :=
    if current_step = 1 then strategy.primary_queries
    else if current_step = 2 then strategy.secondary_queries
    else strategy.category_queries
  let st :=
    actLoop store results_per_query queries_to_run
      ([], ctx.queries_executed, ctx.seen_section_ids)
  (st.1, { ctx with queries_executed := st.2.1, seen_section_ids := st.2.2 })

/-- One think/act/observe round of the retrieval agent: `_think` only
produces a log string and is behaviourally inert; `_act` gathers new
sections; `_observe` extends `sections_found` and re-sorts it by
descending relevance (src/agents/retrieval_agent.py, lines 149-174). -/
def retrievalStep (store : String → Nat → List SearchResult)
    (results_per_query : Nat) (strategy : SearchStrategy)
    (current_step : Nat) (ctx : RetrievalCtx) : RetrievalCtx :=
  let res := retrievalAct store results_per_query strategy current_step ctx
  { res.2 with sections_found := sortByRelevanceDesc (res.2.sections_found ++ res.1) }

/-- Number of accumulated sections with `relevance_score > 0.7`
(`high_quality_results` in `_should_continue`). -/
def highQualityCount (xs : List PolicySection) : Nat :=
  (xs.filter (fun s => decide ((7 : ℚ)/10 < s.relevance_score))).length

/-- `RetrievalAgent._should_continue` (src/agents/retrieval_agent.py,
lines 176-221). -/
def retrievalShouldContinue (max_iterations min_results : Nat)
    (strategy : SearchStrategy) (current_step : Nat) (ctx : RetrievalCtx) : Bool :=
  if max_iterations ≤ current_step then false
  else if min_results ≤ highQualityCount ctx.sections_found then false
  else if (strategy.get_all_queries.filter
      (fun q => !(ctx.queries_executed.contains q))) = [] then false
  else true

/-- `RetrievalAgent._assess_coverage` (src/agents/retrieval_agent.py). -/
def assessCoverage (xs : List PolicySection) : String :=
  if xs = [] then "none"
  else
    let hi := (xs.filter (fun s => decide ((8 : ℚ)/10 < s.relevance_score))).length
    let med := (xs.filter (fun s =>
      decide ((6 : ℚ)/10 ≤ s.relevance_score ∧ s.relevance_score ≤ (8 : ℚ)/10))).length
    if 3 ≤ hi then "comprehensive"
    else if 1 ≤ hi ∨ 3 ≤ med then "partial"
    else "insufficient"

/-- `RetrievalAgent._extract_result` (src/agents/retrieval_agent.py, lines
243-267): confidence is 0 with no sections, otherwise the mean of the
relevance scores of the first five entries of the stored
(descending-sorted) list. -/
def extractRetrievalResult (req : Requirement) (current_step : Nat)
    (ctx : RetrievalCtx) : RetrievalResult :=
  let confidence : ℚ :=
    if ctx.sections_found = [] then 0
    else
      let top_scores := (ctx.sections_found.take 5).map (·.relevance_score)
      if top_scores = [] then 0 else top_scores.sum / (top_scores.length : ℚ)
  ⟨req.requirement_id, current_step, ctx.queries_executed, ctx.sections_found,
    assessCoverage ctx.sections_found, confidence⟩

/-- `RetrievalAgent.retrieve` (src/agents/retrieval_agent.py, lines
269-305): seeds an empty context and drives it through the agent loop
kernel, then extracts the `RetrievalResult`.  Constructor defaults are
`max_iterations = 3`, `min_results = 3`, `results_per_query = 5`. -/
def retrieve (store : String → Nat → List SearchResult)
    (results_per_query min_results max_iterations : Nat)
    (req : Requirement) (strategy : SearchStrategy) : RetrievalResult :=
  let r :=
    runLoop (retrievalStep store results_per_query strategy)
      (retrievalShouldContinue max_iterations min_results strategy)
      max_iterations ⟨[], [], []⟩
  extractRetrievalResult req r.1 r.2

/-- Typed payload of a successfully parsed reasoning-model response in
`AnalysisAgent._analyze_compliance`: the fields the `try` block extracts
from the JSON (`status` and `severity` already converted to their enums —
an unknown enum value raises `ValueError`, which the same `except` clause
catches, so it counts as a parse failure). -/
structure AnalysisData where
  status : ComplianceStatus
  confidence : ℚ
  reasoning_steps : List ReasoningStep
  gap_details : Option GapDetails
  severity : Option Severity
deriving Repr, DecidableEq

/-- `AnalysisAgent._analyze_compliance` (src/agents/analysis_agent.py,
lines 91-222).  The LLM call plus fence-stripping plus
`json.loads`-and-extraction is the external boundary, modelled by the
`parsed` argument: `.ok data` for a well-formed response, `.error e` for a
response whose processing raised `json.JSONDecodeError`, `KeyError` or
`ValueError` with message `e`.  The function is total: the `except` branch
builds the fallback finding instead of propagating. -/
def analyzeCompliance (req : Requirement) (retrieval : RetrievalResult)
    (parsed : Except String AnalysisData) : Finding :=
  match parsed with
  | .ok data =>
    let base : Finding :=
      { requirement_id := req.requirement_id
        requirement_citation := req.citation
        requirement_text := req.text
        status := data.status
        confidence := data.confidence
        reasoning_chain := data.reasoning_steps
        sections_found := retrieval.sections_found
        severity := data.severity }
    if data.gap_details.isSome ∧ base.is_gap then
      { base with gap_details := data.gap_details }
    else base
  | .error e =>
    { requirement_id := req.requirement_id
      requirement_citation := req.citation
      requirement_text := req.text
      status := .uncertain
      confidence := 3/10
      reasoning_chain :=
        [⟨1, "Analysis failed due to parsing error", "Error: " ++ e⟩]
      sections_found := retrieval.sections_found }

/-- `AnalysisAgent._add_recommendation` (src/agents/analysis_agent.py,
lines 224-264).  The recommendation LLM call is the `rec` argument;
on failure a generic fallback referencing the requirement text is
synthesized. -/
def addRecommendation (req : Requirement) (rec : Except String String)
    (f : Finding) : Finding :=
  if !f.is_gap then { f with recommendation := none }
  else
    match rec with
    | .ok text => { f with recommendation := some text }
    | .error _ =>
      { f with recommendation := some ("Add policy section addressing: " ++ req.text) }

/-- The full two-step gap-analysis stage (`AnalysisAgent._should_continue`
is `current_step < 2`, so `analyze` runs `_analyze_compliance` at step 1
and `_add_recommendation` at step 2, then extracts the result). -/
def analysisPipeline (req : Requirement) (retrieval : RetrievalResult)
    (parsed : Except String AnalysisData) (rec : Except String String) : Finding :=
  addRecommendation req rec (analyzeCompliance req retrieval parsed)

/-- Outcome of the retrieval-agent call made by the `retrieve_context`
node (`retrieval_result["sections"]`, `retrieval_result.get("confidence", 0.0)`). -/
structure RetrievalNodeOutcome where
  sections : List RetrievedSection
  confidence : ℚ
deriving Repr, DecidableEq

/-- Outcome of the validation-agent call made by the `validate_finding`
node (`validation_result["status"]`, `validation_result.get("feedback", "")`). -/
structure ValidationNodeOutcome where
  status : String
  feedback : String
deriving Repr, DecidableEq

/-- Handler of the `except` clause in `parse_documents`: record the error
and mark the run failed. -/
def parseDocumentsHandler (s : WorkflowState) (e : String) : WorkflowState :=
  let s := add_error s ("Error parsing documents: " ++ e)
  { s with workflow_status := "failed" }

/-- Benchmark half of the `parse_documents` `try` block. -/
def parseBenchmarkPart (parse : Document → Except String Document)
    (s : WorkflowState) : WorkflowState :=
  match s.benchmark_document with
  | none => add_log s "Document parsing completed successfully"
  | some b =>
    let s1 := add_log s "Parsing benchmark document"
    match parse b with
    | .error e => parseDocumentsHandler s1 e
    | .ok b' =>
      let s2 := add_log { s1 with benchmark_document := some b' }
        "Benchmark document parsed"
      add_log s2 "Document parsing completed successfully"

/-- `parse_documents` node (src/workflow/nodes.py, lines 36-93).  The
parser plus structure extractor applied to one document is the external
boundary `parse`; `.error e` stands for an exception raised while parsing
that document. -/
def parse_documents (parse : Document → Except String Document)
    (s0 : WorkflowState) : WorkflowState :=
  let s := add_log s0 "Starting document parsing..."
  match s.policy_document with
  | none => parseBenchmarkPart parse s
  | some p =>
    let s1 := add_log s "Parsing policy document"
    match parse p with
    | .error e => parseDocumentsHandler s1 e
    | .ok p' =>
      let s2 := add_log { s1 with policy_document := some p' }
        "Policy document parsed"
      parseBenchmarkPart parse s2

/-- Handler of the `except` clause in `extract_requirements`. -/
def extractRequirementsHandler (s : WorkflowState) (e : String) : WorkflowState :=
  let s := add_error s ("Error extracting requirements: " ++ e)
  { s with workflow_status := "failed" }

/-- `extract_requirements` node (src/workflow/nodes.py, lines 96-145); the
requirement-extractor agent is the external boundary `extractor`. -/
def extract_requirements (extractor : Document → Except String (List Requirement))
    (s0 : WorkflowState) : WorkflowState :=
  let s := add_log s0 "Starting requirement extraction..."
  match s.benchmark_document with
  | none => extractRequirementsHandler s "No benchmark document found in state"
  | some b =>
    let s1 := add_log s "Analyzing benchmark document for requirements..."
    match extractor b with
    | .error e => extractRequirementsHandler s1 e
    | .ok reqs =>
      let s2 := { s1 with requirements := reqs, total_requirements := reqs.length }
      let s3 := add_log s2 "Extracted requirements from benchmark"
      match reqs with
      | [] => s3
      | r :: _ =>
        let s4 := { s3 with current_requirement := some r,
                            current_requirement_index := 0 }
        let s5 := reset_validation_iteration (reset_retrieval_iteration s4)
        add_log s5 "Starting analysis with first requirement"

/-- `understand_query` node (src/workflow/nodes.py, lines 148-191); the
query agent call is the external boundary `qa`.  Its `except` clause does
not touch `workflow_status`. -/
def understand_query (qa : Except String SearchStrategy)
    (s0 : WorkflowState) : WorkflowState :=
  let s := add_log s0 "Understanding requirement and generating queries..."
  match s.current_requirement with
  | none => add_error s "Error in query understanding: No current requirement in state"
  | some _ =>
    let s1 := add_log s "Analyzing requirement"
    match qa with
    | .error e => add_error s1 ("Error in query understanding: " ++ e)
    | .ok strat =>
      let s2 := { s1 with search_queries := some strat }
      add_log s2 "Generated queries"

/-- `retrieve_context` node (src/workflow/nodes.py, lines 194-250); the
retrieval agent call is the external boundary `ra`.  Its `except` clause
does not touch `workflow_status`. -/
def retrieve_context (ra : Except String RetrievalNodeOutcome)
    (s0 : WorkflowState) : WorkflowState :=
  let s := add_log s0 "Retrieving context"
  if s.policy_document = none ∨ s.search_queries = none ∨
      s.current_requirement = none then
    add_error s "Error in retrieval: Missing required data for retrieval"
  else
    match ra with
    | .error e => add_error s ("Error in retrieval: " ++ e)
    | .ok r =>
      let s1 := { s with retrieval_results := r.sections,
                         retrieval_confidence := r.confidence }
      let s2 := increment_retrieval_iteration s1
      add_log s2 "Retrieved sections"

/-- `analyze_gap` node (src/workflow/nodes.py, lines 253-300); the
analysis agent call is the external boundary `an`.  Its `except` clause
does not touch `workflow_status`. -/
def analyze_gap (an : Except String Finding) (s0 : WorkflowState) : WorkflowState :=
  let s := add_log s0 "Analyzing compliance gap..."
  match s.current_requirement with
  | none => add_error s "Error in analysis: No current requirement in state"
  | some _ =>
    let s1 := add_log s "Comparing requirement to policy sections..."
    match an with
    | .error e => add_error s1 ("Error in analysis: " ++ e)
    | .ok f =>
      let s2 := { s1 with current_finding := some f,
                          analysis_reasoning := f.reasoning_chain }
      if f.status ≠ .compliant then add_log s2 "Gap identified"
      else add_log s2 "Requirement appears to be compliant"

/-- `validate_finding` node (src/workflow/nodes.py, lines 303-357); the
validation agent call is the external boundary `va`.  With no current
finding it sets `validation_status` to `"approved"` and returns at once —
no agent call, no iteration increment.  Its `except` clause sets
`validation_status` to `"retry"` and does not touch `workflow_status`. -/
def validate_finding (va : Except String ValidationNodeOutcome)
    (s0 : WorkflowState) : WorkflowState :=
  let s := add_log s0 "Validating finding"
  match s.current_finding with
  | none =>
    let s1 := { s with validation_status := some "approved" }
    add_log s1 "No gap found - validation passed"
  | some _ =>
    match va with
    | .error e =>
      let s1 := add_error s ("Error in validation: " ++ e)
      { s1 with validation_status := some "retry" }
    | .ok vr =>
      let s1 := { s with validation_status := some vr.status,
                         validation_feedback := vr.feedback }
      let s2 := increment_validation_iteration s1
      add_log s2 "Validation result recorded"

/-- `aggregate_findings` node (src/workflow/nodes.py, lines 360-410); its
`try` body performs no external call, so no failure point is modelled. -/
def aggregate_findings (s0 : WorkflowState) : WorkflowState :=
  let s := add_log s0 "Aggregating all findings..."
  let s :=
    match s.current_finding, s.validation_status with
    | some f, some "approved" =>
      add_log { s with findings := s.findings ++ [f] } "Added finding for requirement"
    | _, _ => s
  let s := move_to_next_requirement s
  if s.all_requirements_processed then
    add_log { s with workflow_status := "completed" } "Workflow completed"
  else
    match s.current_requirement with
    | some _ => add_log s "Moving to next requirement"
    | none => s

/-- Claim-side (spec wording): the number of non-critical checks (logic
validity, completeness, recommendation actionability) that failed. -/
def nonCriticalFailedCount (c : ValidationChecks) : Nat :=
  (if c.logic_valid then 0 else 1) + (if c.completeness_ok then 0 else 1) +
  (if c.recommendation_actionable then 0 else 1)

/-- Claim-side (spec wording): the arithmetic mean of the relevance scores
of the top-5 EvidenceSections ordered by descending relevance (the mean
over all sections when fewer than 5 exist), 0 when there are none. -/
def topFiveMeanRelevance (xs : List PolicySection) : ℚ :=
  let scores := ((sortByRelevanceDesc xs).take 5).map (·.relevance_score)
  if scores = [] then 0 else scores.sum / (scores.length : ℚ)

/-- Deduplication invariant of the retrieval context: accumulated section
ids are pairwise distinct, and every accumulated id is registered in
`seen_section_ids`. -/
def retrievalInv (ctx : RetrievalCtx) : Prop :=
  (ctx.sections_found.map (·.section_id)).Nodup ∧
  ∀ s ∈ ctx.sections_found, s.section_id ∈ ctx.seen_section_ids

/-- Concrete state refuting the unguarded retry-retrieval routing: a
`retry` verdict whose feedback contains "missing context", with
`validation_iteration` 1 of 2 but `retrieval_iteration` already at the
retrieval cap. -/
def c1_state : WorkflowState :=
  { create_initial_state with
      validation_status := some "retry"
      validation_feedback := "missing context"
      validation_iteration := 1
      max_validation_iterations := 2
      retrieval_iteration := 3
      max_retrieval_iterations := 3 }

/-- Requirement for the Scenario B run. -/
def scenarioB_req : Requirement := ⟨"R1", "Art. 1", "requirement text"⟩

/-- Strategy for the Scenario B run: secondary and category tiers remain
unexecuted after iteration 1. -/
def scenarioB_strategy : SearchStrategy := ⟨"R1", ["p1"], ["s1"], ["c1"], []⟩

/-- Content store for the Scenario B run: the single primary query returns
three sections with relevance 0.9, 0.85, 0.75. -/
def scenarioB_store (q : String) (_ : Nat) : List SearchResult :=
  if q = "p1" then
    [⟨"A", none, "a", 9/10, none⟩, ⟨"B", none, "b", 17/20, none⟩,
     ⟨"C", none, "c", 3/4, none⟩]
  else []

/-- Requirement for the re-found-section run. -/
def c4_req : Requirement := ⟨"R2", "Art. 2", "requirement text"⟩

/-- Strategy for the re-found-section run: two primary queries, the
second executed after the first within iteration 1. -/
def c4_strategy : SearchStrategy := ⟨"R2", ["q1", "q2"], [], [], []⟩

/-- Content store for the re-found-section run: the same section id "S1"
comes back from the primary query with score 0.5 and from the secondary
query with the higher score 0.9. -/
def c4_store (q : String) (_ : Nat) : List SearchResult :=
  if q = "q1" then [⟨"S1", none, "body", 1/2, none⟩]
  else if q = "q2" then [⟨"S1", none, "body", 9/10, none⟩]
  else []

/-- A one-entry retrieval context used to witness step-wise entry
preservation. -/
def c4_witness_ctx : RetrievalCtx :=
  ⟨[⟨"S1", none, "body", 1/2, none, "q1"⟩], ["q1"], ["S1"]⟩

lemma runLoopAux_fst_le {Ctx : Type} (stepF : Nat → Ctx → Ctx)
    (contF : Nat → Ctx → Bool) :
    ∀ fuel cur ctx, (runLoopAux stepF contF fuel cur ctx).1 ≤ cur + fuel := by
  intro fuel
  induction fuel with
  | zero => intro cur ctx; simp [runLoopAux]
  | succ n ih =>
    intro cur ctx
    have hih := ih (cur + 1) (stepF (cur + 1) ctx)
    simp only [runLoopAux]
    cases h : contF (cur + 1) (stepF (cur + 1) ctx)
    · simp
    · simp
      omega

lemma runLoopAux_preserves {Ctx : Type} (P : Ctx → Prop) (stepF : Nat → Ctx → Ctx)
    (contF : Nat → Ctx → Bool) (hstep : ∀ n c, P c → P (stepF n c)) :
    ∀ fuel cur ctx, P ctx → P (runLoopAux stepF contF fuel cur ctx).2 := by
  intro fuel
  induction fuel with
  | zero => intro cur ctx h; simpa [runLoopAux] using h
  | succ n ih =>
    intro cur ctx h
    simp only [runLoopAux]
    cases hc : contF (cur + 1) (stepF (cur + 1) ctx)
    · simpa using hstep _ _ h
    · simpa using ih _ _ (hstep _ _ h)

/-- C9: for every agent run through the agent loop kernel, the number of
executed think/act/observe iterations never exceeds the maximum iteration
count supplied to the kernel; in particular, the retrieval engine at its
constructor defaults (`max_iterations = 3`, `min_results = 3`,
`results_per_query = 5`) never executes more than 3 iterations for any
requirement. -/
theorem C9_iteration_cap :
    (∀ (Ctx : Type) (stepF : Nat → Ctx → Ctx) (contF : Nat → Ctx → Bool)
        (max_iterations : Nat) (ctx : Ctx),
      (runLoop stepF contF max_iterations ctx).1 ≤ max_iterations) ∧
    (∀ (store : String → Nat → List SearchResult) (req : Requirement)
        (strategy : SearchStrategy),
      (retrieve store 5 3 3 req strategy).retrieval_attempts ≤ 3) := by
  constructor
  · intro Ctx stepF contF m ctx
    have h := runLoopAux_fst_le stepF contF m 0 ctx
    simpa [runLoop] using h
  · intro store req strategy
    simpa [retrieve, runLoop, extractRetrievalResult] using
      runLoopAux_fst_le (retrievalStep store 5 strategy)
        (retrievalShouldContinue 3 3 strategy) 3 0 ⟨[], [], []⟩

/-- C1 (counterexample): the claimed routing table omits the retrieval
iteration cap checked inside `should_retry_retrieval`: on a `retry`
verdict with feedback "missing context" and `validation_iteration` 1 of 2,
but `retrieval_iteration` already at `max_retrieval_iterations`, the code
routes to `"retry_analysis"` while the claim requires
`"retry_retrieval"`. -/
theorem C1_counterexample :
    c1_state.validation_status = some "retry" ∧
    c1_state.validation_iteration < c1_state.max_validation_iterations ∧
    feedback_needs_more_context c1_state.validation_feedback = true ∧
    route_after_validation c1_state = "retry_analysis" ∧
    ("retry_analysis" : String) ≠ "retry_retrieval" := by
  refine ⟨rfl, by decide, by decide, by decide, by decide⟩

/-- C1 (amended): `route_after_validation` returns `"aggregate"` on
`approved` and on `rejected`; on `retry` below the validation-iteration
max it returns `"retry_retrieval"` when additionally
`retrieval_iteration < max_retrieval_iterations` and the feedback mentions
one of the incompleteness/missing-context keywords ("incomplete",
"missing", "insufficient", "not found", "more context"), and
`"retry_analysis"` otherwise; on `retry` at or above the max it returns
`"aggregate"`.  In particular the claim's Scenario D holds whenever the
retrieval iteration counter is below its cap (as it is at its default 0). -/
theorem C1_route_after_validation (s : WorkflowState) :
    (s.validation_status = some "approved" → route_after_validation s = "aggregate") ∧
    (s.validation_status = some "rejected" → route_after_validation s = "aggregate") ∧
    (s.validation_status = some "retry" →
      s.validation_iteration < s.max_validation_iterations →
      s.retrieval_iteration < s.max_retrieval_iterations →
      feedback_needs_more_context s.validation_feedback = true →
      route_after_validation s = "retry_retrieval") ∧
    (s.validation_status = some "retry" →
      s.validation_iteration < s.max_validation_iterations →
      (s.max_retrieval_iterations ≤ s.retrieval_iteration ∨
        feedback_needs_more_context s.validation_feedback = false) →
      route_after_validation s = "retry_analysis") ∧
    (s.validation_status = some "retry" →
      s.max_validation_iterations ≤ s.validation_iteration →
      route_after_validation s = "aggregate") := by
  refine ⟨?_, ?_, ?_, ?_, ?_⟩
  · intro h
    simp [route_after_validation, h]
  · intro h
    simp [route_after_validation, h]
  · intro h h1 h2 h3
    simp [route_after_validation, should_retry_retrieval, h, h3,
      Nat.not_le.mpr h1, Nat.not_le.mpr h2]
  · intro h h1 h2
    rcases h2 with h2 | h2 <;>
      simp [route_after_validation, should_retry_retrieval, h, h2, Nat.not_le.mpr h1]
  · intro h h1
    simp [route_after_validation, h, h1]

/-- C1 (witness): the amended routing applied at concrete states,
including the claim's Scenario D with the retrieval counter at its
default. -/
theorem C1_route_after_validation_witness :
    route_after_validation
      { create_initial_state with
          validation_status := some "retry"
          validation_feedback := "missing context"
          validation_iteration := 1
          max_validation_iterations := 2 } = "retry_retrieval" ∧
    route_after_validation
      { create_initial_state with validation_status := some "approved" } = "aggregate" ∧
    route_after_validation c1_state = "retry_analysis" :=
  ⟨(C1_route_after_validation _).2.2.1 rfl (by decide) (by decide) (by decide),
   (C1_route_after_validation _).1 rfl,
   (C1_route_after_validation _).2.2.2.1 rfl (by decide) (Or.inl (by decide))⟩

/-- C2: the verdict computed by `_generate_validation_result` is valid
exactly when the two critical checks (citation validity and
no-hallucination) both pass and at most one of the remaining three checks
fails; hence validity implies both critical checks passed. -/
theorem C2_validator_critical_gate (c : ValidationChecks) :
    ((generate_validation_result c).is_valid = true ↔
      (c.citation_valid = true ∧ c.no_hallucination = true ∧
        nonCriticalFailedCount c ≤ 1)) ∧
    ((generate_validation_result c).is_valid = true →
      c.citation_valid = true ∧ c.no_hallucination = true) := by
  rcases c with ⟨a, b, d, e, f⟩
  cases a <;> cases b <;> cases d <;> cases e <;> cases f <;> decide

/-- C2 (witness): the critical gate applied at the all-pass check map. -/
theorem C2_validator_critical_gate_witness :
    (generate_validation_result ⟨true, true, true, true, true⟩).is_valid = true ∧
    ((⟨true, true, true, true, true⟩ : ValidationChecks).citation_valid = true ∧
      (⟨true, true, true, true, true⟩ : ValidationChecks).no_hallucination = true) :=
  ⟨rfl, (C2_validator_critical_gate ⟨true, true, true, true, true⟩).2 rfl⟩

/-- C6: for every requirement and every malformed (non-JSON-parseable)
reasoning-model response, `_analyze_compliance` returns (rather than
raising: the embedding is a total function whose error branch is the
source's `except` clause) a finding with status `uncertain`, confidence
0.3, and exactly one reasoning step recording the parse failure. -/
theorem C6_parse_failure_fallback (req : Requirement)
    (retrieval : RetrievalResult) (e : String) :
    (analyzeCompliance req retrieval (Except.error e)).status = .uncertain ∧
    (analyzeCompliance req retrieval (Except.error e)).confidence = 3/10 ∧
    (analyzeCompliance req retrieval (Except.error e)).reasoning_chain =
      [⟨1, "Analysis failed due to parsing error", "Error: " ++ e⟩] :=
  ⟨rfl, rfl, rfl⟩

/-- C7: every finding produced by the two-step gap-analysis stage has
`gap_details` non-null only when its status is not `compliant`, and a
`compliant` finding always carries a null recommendation. -/
theorem C7_gap_details_recommendation (req : Requirement)
    (retrieval : RetrievalResult) (parsed : Except String AnalysisData)
    (rec : Except String String) :
    ((analysisPipeline req retrieval parsed rec).gap_details ≠ none →
      (analysisPipeline req retrieval parsed rec).status ≠ .compliant) ∧
    ((analysisPipeline req retrieval parsed rec).status = .compliant →
      (analysisPipeline req retrieval parsed rec).recommendation = none) := by
  cases parsed with
  | error e =>
    cases rec with
    | error e' =>
      simp [analysisPipeline, analyzeCompliance, addRecommendation, Finding.is_gap]
    | ok t =>
      simp [analysisPipeline, analyzeCompliance, addRecommendation, Finding.is_gap]
  | ok d =>
    rcases d with ⟨st, conf, steps, gd, sev⟩
    cases st <;> cases gd <;> cases rec <;>
      simp [analysisPipeline, analyzeCompliance, addRecommendation, Finding.is_gap]

/-- C7 (witness): the invariants applied at a concrete compliant finding
and a concrete gap finding. -/
theorem C7_gap_details_recommendation_witness :
    (analysisPipeline ⟨"R", "c", "t"⟩ ⟨"R", 1, [], [], "none", 0⟩
        (Except.ok ⟨.compliant, 1, [], none, none⟩)
        (Except.ok "add a section")).recommendation = none ∧
    (analysisPipeline ⟨"R", "c", "t"⟩ ⟨"R", 1, [], [], "none", 0⟩
        (Except.ok ⟨.gap, 1, [], some ⟨"m", none, none⟩, none⟩)
        (Except.ok "add a section")).status ≠ .compliant :=
  ⟨(C7_gap_details_recommendation _ _ _ _).2 rfl,
   (C7_gap_details_recommendation _ _ _ _).1 (by decide)⟩

/-- C8 (counterexample): an exception inside `understand_query` is caught
and recorded in the error list, but the run's status is left at
`"running"`, not set to `"failed"` as the claim requires of every node. -/
theorem C8_counterexample :
    (understand_query (Except.error "boom") create_initial_state).errors =
      ["Error in query understanding: No current requirement in state"] ∧
    (understand_query (Except.error "boom") create_initial_state).workflow_status =
      "running" ∧
    ("running" : String) ≠ "failed" :=
  ⟨rfl, rfl, by decide⟩

/-- C8 (amended): every workflow node catches an exception at its
boundary, appends a message describing it to the run's error list, and
leaves the aggregated findings list unchanged; but only `parse_documents`
and `extract_requirements` mark the run failed — `understand_query`,
`retrieve_context` and `analyze_gap` leave the run status unchanged, and
`validate_finding` leaves it unchanged while setting the validation status
to `retry`.  (`aggregate_findings` performs no modelled external call, so
it has no failure point here.) -/
theorem C8_node_error_boundary :
    (∀ (parse : Document → Except String Document) (s : WorkflowState)
        (p : Document) (e : String),
      s.policy_document = some p → parse p = Except.error e →
      (parse_documents parse s).errors = s.errors ++ ["Error parsing documents: " ++ e] ∧
      (parse_documents parse s).findings = s.findings ∧
      (parse_documents parse s).workflow_status = "failed") ∧
    (∀ (extractor : Document → Except String (List Requirement)) (s : WorkflowState),
      s.benchmark_document = none →
      (extract_requirements extractor s).errors =
        s.errors ++ ["Error extracting requirements: No benchmark document found in state"] ∧
      (extract_requirements extractor s).findings = s.findings ∧
      (extract_requirements extractor s).workflow_status = "failed") ∧
    (∀ (s : WorkflowState) (r : Requirement) (e : String),
      s.current_requirement = some r →
      (understand_query (Except.error e) s).errors =
        s.errors ++ ["Error in query understanding: " ++ e] ∧
      (understand_query (Except.error e) s).findings = s.findings ∧
      (understand_query (Except.error e) s).workflow_status = s.workflow_status) ∧
    (∀ (s : WorkflowState) (e : String),
      s.policy_document ≠ none → s.search_queries ≠ none →
      s.current_requirement ≠ none →
      (retrieve_context (Except.error e) s).errors =
        s.errors ++ ["Error in retrieval: " ++ e] ∧
      (retrieve_context (Except.error e) s).findings = s.findings ∧
      (retrieve_context (Except.error e) s).workflow_status = s.workflow_status) ∧
    (∀ (s : WorkflowState) (r : Requirement) (e : String),
      s.current_requirement = some r →
      (analyze_gap (Except.error e) s).errors =
        s.errors ++ ["Error in analysis: " ++ e] ∧
      (analyze_gap (Except.error e) s).findings = s.findings ∧
      (analyze_gap (Except.error e) s).workflow_status = s.workflow_status) ∧
    (∀ (s : WorkflowState) (f : Finding) (e : String),
      s.current_finding = some f →
      (validate_finding (Except.error e) s).errors =
        s.errors ++ ["Error in validation: " ++ e] ∧
      (validate_finding (Except.error e) s).findings = s.findings ∧
      (validate_finding (Except.error e) s).workflow_status = s.workflow_status ∧
      (validate_finding (Except.error e) s).validation_status = some "retry") := by
  refine ⟨?_, ?_, ?_, ?_, ?_, ?_⟩
  · intro parse s p e h1 h2
    refine ⟨?_, ?_, ?_⟩ <;>
      simp [parse_documents, parseDocumentsHandler, add_log, add_error, h1, h2]
  · intro extractor s h
    refine ⟨?_, ?_, ?_⟩ <;>
      simp [extract_requirements, extractRequirementsHandler, add_log, add_error, h]
  · intro s r e h
    refine ⟨?_, ?_, ?_⟩ <;> simp [understand_query, add_log, add_error, h]
  · intro s e h1 h2 h3
    refine ⟨?_, ?_, ?_⟩ <;> simp [retrieve_context, add_log, add_error, h1, h2, h3]
  · intro s r e h
    refine ⟨?_, ?_, ?_⟩ <;> simp [analyze_gap, add_log, add_error, h]
  · intro s f e h
    refine ⟨?_, ?_, ?_, ?_⟩ <;> simp [validate_finding, add_log, add_error, h]

/-- C8 (witness): the amended per-node error-path behaviour at concrete
states. -/
theorem C8_node_error_boundary_witness :
    (parse_documents (fun _ => Except.error "boom")
        { create_initial_state with policy_document := some ⟨"doc"⟩ }).workflow_status =
      "failed" ∧
    (extract_requirements (fun _ => Except.ok [])
        create_initial_state).workflow_status = "failed" ∧
    (understand_query (Except.error "boom")
        { create_initial_state with current_requirement := some ⟨"R", "c", "t"⟩ }).errors =
      ({ create_initial_state with
          current_requirement := some ⟨"R", "c", "t"⟩ } : WorkflowState).errors ++
        ["Error in query understanding: boom"] ∧
    (retrieve_context (Except.error "boom")
        { create_initial_state with
            policy_document := some ⟨"doc"⟩
            search_queries := some ⟨"R", [], [], [], []⟩
            current_requirement := some ⟨"R", "c", "t"⟩ }).workflow_status = "running" ∧
    (analyze_gap (Except.error "boom")
        { create_initial_state with current_requirement := some ⟨"R", "c", "t"⟩ }).workflow_status =
      "running" ∧
    (validate_finding (Except.error "boom")
        { create_initial_state with
            current_finding :=
              some ⟨"R", "c", "t", .gap, 1, [], [], none, none, none⟩ }).validation_status =
      some "retry" :=
  ⟨(C8_node_error_boundary.1 _ _ _ _ rfl rfl).2.2,
   (C8_node_error_boundary.2.1 _ _ rfl).2.2,
   (C8_node_error_boundary.2.2.1 _ ⟨"R", "c", "t"⟩ _ rfl).1,
   (C8_node_error_boundary.2.2.2.1 _ _ (by decide) (by decide) (by decide)).2.2,
   (C8_node_error_boundary.2.2.2.2.1 _ ⟨"R", "c", "t"⟩ _ rfl).2.2,
   (C8_node_error_boundary.2.2.2.2.2 _ _ _ rfl).2.2.2⟩

/-- C10: when `current_finding` is absent, the `validate_finding` node
sets the validation status to `"approved"`, leaves the validation
iteration counter untouched, produces a result independent of the
validation agent (the validator is never invoked), and
`route_after_validation` then routes to aggregation. -/
theorem C10_no_finding_auto_approved (s : WorkflowState)
    (va va' : Except String ValidationNodeOutcome)
    (h : s.current_finding = none) :
    (validate_finding va s).validation_status = some "approved" ∧
    (validate_finding va s).validation_iteration = s.validation_iteration ∧
    validate_finding va s = validate_finding va' s ∧
    route_after_validation (validate_finding va s) = "aggregate" := by
  refine ⟨?_, ?_, ?_, ?_⟩ <;>
    simp [validate_finding, add_log, h, route_after_validation]

/-- C10 (witness): the no-finding fast path at the initial state, with two
different validator outcomes. -/
theorem C10_no_finding_auto_approved_witness :
    (validate_finding (Except.error "x") create_initial_state).validation_status =
      some "approved" ∧
    (validate_finding (Except.error "x") create_initial_state).validation_iteration =
      create_initial_state.validation_iteration ∧
    validate_finding (Except.error "x") create_initial_state =
      validate_finding (Except.ok ⟨"approved", ""⟩) create_initial_state ∧
    route_after_validation (validate_finding (Except.error "x") create_initial_state) =
      "aggregate" :=
  C10_no_finding_auto_approved create_initial_state (Except.error "x")
    (Except.ok ⟨"approved", ""⟩) rfl

lemma remaining_empty_iff (strategy : SearchStrategy) (executed : List String) :
    (strategy.get_all_queries.filter (fun q => !(executed.contains q))) = [] ↔
      ∀ q ∈ strategy.get_all_queries, q ∈ executed := by
  rw [List.filter_eq_nil_iff]
  simp [List.elem_iff]

/-- C3: the retrieval engine's continuation rule stops (returns false) if
and only if the iteration count has reached the cap, or at least
`min_results` accumulated sections have relevance strictly above 0.7, or
every query across the three strategy tiers has already been executed;
and in the Scenario B run (three sections of relevance 0.9, 0.85, 0.75
found by iteration 1's primary query, `min_results = 3`) the engine stops
after iteration 1. -/
theorem C3_continuation_rule :
    (∀ (max_iterations min_results : Nat) (strategy : SearchStrategy)
        (current_step : Nat) (ctx : RetrievalCtx),
      retrievalShouldContinue max_iterations min_results strategy current_step ctx
          = false ↔
        (max_iterations ≤ current_step ∨
          min_results ≤ highQualityCount ctx.sections_found ∨
          ∀ q ∈ strategy.get_all_queries, q ∈ ctx.queries_executed)) ∧
    (retrieve scenarioB_store 5 3 3 scenarioB_req scenarioB_strategy).retrieval_attempts
        = 1 := by
  constructor
  · intro m mr strat step ctx
    rw [retrievalShouldContinue]
    split_ifs with h1 h2 h3
    · simp [h1]
    · simp [h2]
    · rw [remaining_empty_iff] at h3
      exact iff_of_true rfl (Or.inr (Or.inr h3))
    · constructor
      · intro hco
        simp at hco
      · rintro (h | h | h)
        · exact absurd h h1
        · exact absurd h h2
        · exact absurd ((remaining_empty_iff strat ctx.queries_executed).mpr h) h3
  · norm_num [retrieve, runLoop, runLoopAux, retrievalStep, retrievalAct, actLoop,
      processResults, mkPolicySection, retrievalShouldContinue, highQualityCount,
      sortByRelevanceDesc, extractRetrievalResult, scenarioB_store, scenarioB_req,
      scenarioB_strategy, SearchStrategy.get_all_queries, List.insertionSort,
      List.orderedInsert, relDesc, List.filter]

lemma retrievalStep_sections_sorted (store : String → Nat → List SearchResult)
    (rpq : Nat) (strat : SearchStrategy) (n : Nat) (ctx : RetrievalCtx) :
    List.Sorted relDesc (retrievalStep store rpq strat n ctx).sections_found := by
  show List.Sorted relDesc (List.insertionSort relDesc _)
  exact List.sorted_insertionSort relDesc _

lemma extract_confidence_eq (req : Requirement) (steps : Nat) (ctx : RetrievalCtx)
    (h : List.Sorted relDesc ctx.sections_found) :
    (extractRetrievalResult req steps ctx).confidence =
      topFiveMeanRelevance (extractRetrievalResult req steps ctx).sections_found := by
  have hs : sortByRelevanceDesc ctx.sections_found = ctx.sections_found := by
    simpa [sortByRelevanceDesc] using List.Sorted.insertionSort_eq h
  simp only [extractRetrievalResult, topFiveMeanRelevance, hs]
  cases hxs : ctx.sections_found with
  | nil => simp
  | cons x xs => simp [List.take_succ_cons]

/-- C5: on every termination of the retrieval engine, the confidence in
the returned result equals the arithmetic mean of the relevance scores of
the top-5 sections ordered by descending relevance (mean over all when
fewer than 5, and 0 when none) — stated as agreement with
`topFiveMeanRelevance`, a function of the returned EvidenceSection set
alone, so recomputing it from the same set always yields the same value. -/
theorem C5_confidence_top5_mean (store : String → Nat → List SearchResult)
    (rpq minRes maxIter : Nat) (req : Requirement) (strat : SearchStrategy) :
    (retrieve store rpq minRes maxIter req strat).confidence =
      topFiveMeanRelevance (retrieve store rpq minRes maxIter req strat).sections_found := by
  have hsort : List.Sorted relDesc
      (runLoopAux (retrievalStep store rpq strat)
        (retrievalShouldContinue maxIter minRes strat) maxIter 0
        ⟨[], [], []⟩).2.sections_found :=
    runLoopAux_preserves (fun c => List.Sorted relDesc c.sections_found)
      (retrievalStep store rpq strat) (retrievalShouldContinue maxIter minRes strat)
      (fun n c _ => retrievalStep_sections_sorted store rpq strat n c)
      maxIter 0 ⟨[], [], []⟩ (by simp)
  exact extract_confidence_eq req _ _ hsort

lemma processResults_inv (query : String) (B : List String) :
    ∀ (rs : List SearchResult) (seen : List String) (acc : List PolicySection),
      (∀ b ∈ B, b ∈ seen) →
      (acc.map (·.section_id)).Nodup →
      (∀ s ∈ acc, s.section_id ∈ seen) →
      (∀ s ∈ acc, s.section_id ∉ B) →
      (∀ b ∈ B, b ∈ (processResults query rs seen acc).2) ∧
        ((processResults query rs seen acc).1.map (·.section_id)).Nodup ∧
        (∀ s ∈ (processResults query rs seen acc).1,
          s.section_id ∈ (processResults query rs seen acc).2) ∧
        (∀ s ∈ (processResults query rs seen acc).1, s.section_id ∉ B) := by
  intro rs
  induction rs with
  | nil =>
    intro seen acc hB hnd hseen hnB
    exact ⟨hB, hnd, hseen, hnB⟩
  | cons r rs ih =>
    intro seen acc hB hnd hseen hnB
    by_cases hc : seen.contains r.section_id = true
    · have hred : processResults query (r :: rs) seen acc =
          processResults query rs seen acc := by
        simp only [processResults]
        rw [if_pos hc]
      rw [hred]
      exact ih seen acc hB hnd hseen hnB
    · have hred : processResults query (r :: rs) seen acc =
          processResults query rs (r.section_id :: seen)
            (acc ++ [mkPolicySection query r]) := by
        simp only [processResults]
        rw [if_neg hc]
      rw [hred]
      have hrid_not_seen : r.section_id ∉ seen := fun hmem =>
        hc (List.elem_iff.mpr hmem)
      apply ih (r.section_id :: seen) (acc ++ [mkPolicySection query r])
      · intro b hb
        exact List.mem_cons_of_mem _ (hB b hb)
      · have hid : r.section_id ∉ acc.map (·.section_id) := by
          intro hmem
          rcases List.mem_map.mp hmem with ⟨s, hsmem, hsid⟩
          exact hrid_not_seen (hsid ▸ hseen s hsmem)
        simp [List.nodup_append, mkPolicySection, hnd, hid]
      · intro s hs
        rcases List.mem_append.mp hs with h | h
        · exact List.mem_cons_of_mem _ (hseen s h)
        · have hse : s = mkPolicySection query r := by simpa using h
          simp [hse, mkPolicySection]
      · intro s hs
        rcases List.mem_append.mp hs with h | h
        · exact hnB s h
        · have hse : s = mkPolicySection query r := by simpa using h
          intro hBmem
          have hseenB : s.section_id ∈ seen := hB _ hBmem
          rw [hse] at hseenB
          exact hrid_not_seen (by simpa [mkPolicySection] using hseenB)

lemma actLoop_inv (store : String → Nat → List SearchResult) (rpq : Nat)
    (B : List String) :
    ∀ (qs : List String) (st : List PolicySection × List String × List String),
      (∀ b ∈ B, b ∈ st.2.2) →
      (st.1.map (·.section_id)).Nodup →
      (∀ s ∈ st.1, s.section_id ∈ st.2.2) →
      (∀ s ∈ st.1, s.section_id ∉ B) →
      (∀ b ∈ B, b ∈ (actLoop store rpq qs st).2.2) ∧
        ((actLoop store rpq qs st).1.map (·.section_id)).Nodup ∧
        (∀ s ∈ (actLoop store rpq qs st).1,
          s.section_id ∈ (actLoop store rpq qs st).2.2) ∧
        (∀ s ∈ (actLoop store rpq qs st).1, s.section_id ∉ B) := by
  intro qs
  induction qs with
  | nil =>
    intro st h1 h2 h3 h4
    exact ⟨h1, h2, h3, h4⟩
  | cons q qs ih =>
    intro st h1 h2 h3 h4
    by_cases hq : q = "" ∨ st.2.1.contains q = true
    · have hred : actLoop store rpq (q :: qs) st = actLoop store rpq qs st := by
        simp only [actLoop]
        rw [if_pos hq]
      rw [hred]
      exact ih st h1 h2 h3 h4
    · have hred : actLoop store rpq (q :: qs) st =
          actLoop store rpq qs
            ((processResults q (store q rpq) st.2.2 st.1).1, st.2.1 ++ [q],
              (processResults q (store q rpq) st.2.2 st.1).2) := by
        simp only [actLoop]
        rw [if_neg hq]
      rw [hred]
      have hp := processResults_inv q B (store q rpq) st.2.2 st.1 h1 h2 h3 h4
      exact ih _ hp.1 hp.2.1 hp.2.2.1 hp.2.2.2

lemma retrievalStep_inv (store : String → Nat → List SearchResult) (rpq : Nat)
    (strat : SearchStrategy) (n : Nat) (ctx : RetrievalCtx)
    (h : retrievalInv ctx) : retrievalInv (retrievalStep store rpq strat n ctx) := by
  rcases h with ⟨hnd, hseen⟩
  have ha := actLoop_inv store rpq ctx.seen_section_ids
    (if n = 1 then strat.primary_queries
      else if n = 2 then strat.secondary_queries else strat.category_queries)
    ([], ctx.queries_executed, ctx.seen_section_ids)
    (fun _ hb => hb) (by simp) (by simp) (by simp)
  rcases ha with ⟨haB, hand, hain, hanB⟩
  constructor
  · show (List.insertionSort relDesc _ |>.map (·.section_id)).Nodup
    apply (((List.perm_insertionSort relDesc _).map (·.section_id)).nodup_iff).mpr
    rw [List.map_append, List.nodup_append]
    refine ⟨hnd, hand, ?_⟩
    intro a ha1 ha2
    rcases List.mem_map.mp ha1 with ⟨s, hs, rfl⟩
    rcases List.mem_map.mp ha2 with ⟨t, ht, hts⟩
    exact hanB t ht (hts ▸ hseen s hs)
  · intro s hs
    have hs' : s ∈ ctx.sections_found ++
        (actLoop store rpq
          (if n = 1 then strat.primary_queries
            else if n = 2 then strat.secondary_queries else strat.category_queries)
          ([], ctx.queries_executed, ctx.seen_section_ids)).1 :=
      ((List.perm_insertionSort relDesc _).mem_iff).mp hs
    rcases List.mem_append.mp hs' with hmem | hmem
    · exact haB _ (hseen s hmem)
    · exact hain s hmem

/-- C4 (counterexample): with section "S1" first found at relevance 0.5
and re-found by a later query at relevance 0.9, the accumulated set still
carries "S1" at 0.5 after the run — the stored score is not replaced by
the higher one as claimed. -/
theorem C4_counterexample :
    (retrieve c4_store 5 0 3 c4_req c4_strategy).sections_found.map
        (fun s => (s.section_id, s.relevance_score)) = [("S1", 1/2)] ∧
    ((1 : ℚ)/2) ≠ 9/10 := by
  constructor
  · norm_num [retrieve, runLoop, runLoopAux, retrievalStep, retrievalAct, actLoop,
      processResults, mkPolicySection, retrievalShouldContinue, highQualityCount,
      sortByRelevanceDesc, extractRetrievalResult, c4_store, c4_req, c4_strategy,
      SearchStrategy.get_all_queries, List.insertionSort, List.orderedInsert,
      relDesc, List.filter]
  · norm_num

/-- C4 (amended): the accumulated EvidenceSection set never carries two
entries with the same section id; and a section whose id is already in the
set is skipped entirely when returned again, every stored entry being
carried unchanged (score included) through each later iteration — so the
stored score never decreases, but it is also never replaced by a later,
higher score. -/
theorem C4_dedup_and_preservation :
    (∀ (store : String → Nat → List SearchResult) (rpq minRes maxIter : Nat)
        (req : Requirement) (strat : SearchStrategy),
      ((retrieve store rpq minRes maxIter req strat).sections_found.map
        (·.section_id)).Nodup) ∧
    (∀ (store : String → Nat → List SearchResult) (rpq : Nat)
        (strat : SearchStrategy) (n : Nat) (ctx : RetrievalCtx)
        (s : PolicySection), s ∈ ctx.sections_found →
      s ∈ (retrievalStep store rpq strat n ctx).sections_found) := by
  constructor
  · intro store rpq minRes maxIter req strat
    have hinv := runLoopAux_preserves retrievalInv
      (retrievalStep store rpq strat) (retrievalShouldContinue maxIter minRes strat)
      (fun n c hc => retrievalStep_inv store rpq strat n c hc)
      maxIter 0 ⟨[], [], []⟩ ⟨by simp, by simp⟩
    exact hinv.1
  · intro store rpq strat n ctx s hs
    exact ((List.perm_insertionSort relDesc _).mem_iff).mpr (List.mem_append_left _ hs)

/-- C4 (witness): entry preservation applied at a concrete one-entry
context fed through a later iteration that re-finds the same section id. -/
theorem C4_dedup_and_preservation_witness :
    (⟨"S1", none, "body", 1/2, none, "q1"⟩ : PolicySection) ∈
      (retrievalStep c4_store 5 c4_strategy 1 c4_witness_ctx).sections_found :=
  C4_dedup_and_preservation.2 c4_store 5 c4_strategy 1 c4_witness_ctx _
    (by simp [c4_witness_ctx])

end ComplianceOracle
